import Mathlib

/-
Verification of the role-staffing and response-reconciliation subsystem of the
escala_geracao_eleitaa repository against its specification.

The repository ships two React frontend files. The file src/unnamed/part_002
holds the full dashboard with the admin panel (getAllFunctions,
getRequiredCount, initializeScheduleAssignments, handleDayTypeChange,
handleAssignmentChange, the over-staffing warning and a ScheduleCard that
derives role sections from the day type). The file src/frontend/src/App.js
holds an earlier dashboard whose ScheduleCard maps over the assignments
present in the record. The FastAPI backend referenced by the build script is
not among the source files; operations that live there (createSchedule,
recordResponse) are modelled from the specification and marked as such.

Strings are used for day types, role types, user ids and response statuses,
exactly as the JavaScript source does.
-/

namespace Escala

/-- Response record as stored in an assignment: a status string
(pending, accepted or declined) and an optional free-text reason. -/
structure Response where
  status : String
  reason : String
  deriving Repr, DecidableEq

/-- Assignment object as built by the frontend: a function (role) type,
the list of assigned user ids, and the responses object keyed by user id
(modelled as an association list, preserving key order). -/
structure Assignment where
  function_type : String
  user_ids : List String
  responses : List (String × Response)
  deriving Repr, DecidableEq

/-- Schedule record as consumed by both ScheduleCard components. -/
structure ScheduleRecord where
  id : String
  date : String
  day_type : String
  assignments : List Assignment
  deriving Repr, DecidableEq

/-- Admin-panel schedule form state (src/unnamed/part_002 lines 523-527). -/
structure ScheduleForm where
  date : String
  day_type : String
  assignments : List Assignment
  deriving Repr, DecidableEq

/-- Embeds getAllFunctions (src/unnamed/part_002 lines 242-249): the ordered
role list the UI derives from a day type, with an empty-list fallback for
unrecognized day types. -/
def getAllFunctions (dayType : String) : List String :=
  if dayType = "wednesday" ∨ dayType = "saturday" then
    ["pregacao", "limpeza", "louvor", "introdutoria"]
  else if dayType = "friday" then
    ["pregacao", "portaria"]
  else
    []

/-- Embeds getRequiredCount (src/unnamed/part_002 lines 225-233, repeated
verbatim at lines 680-688). The dayType parameter is accepted but never
read by the source body; the final branch is a silent fallback of 1. -/
def getRequiredCount (functionType : String) (dayType : String) : Nat :=
  if functionType = "pregacao" ∨ functionType = "introdutoria" ∨ functionType = "portaria" then
    1
  else if functionType = "limpeza" ∨ functionType = "louvor" then
    3
  else
    1

/-- The requirements lookup of the code: the role list from getAllFunctions
paired with each role's getRequiredCount, as the ScheduleCard and the admin
form consume them (src/unnamed/part_002 lines 251, 263-265, 907-912). -/
def requirementsFor (dayType : String) : List (String × Nat) :=
  (getAllFunctions dayType).map (fun r => (r, getRequiredCount r dayType))

/-- Embeds initializeScheduleAssignments (src/unnamed/part_002 lines
581-599): one assignment per required role with empty user_ids and empty
responses, empty list for unrecognized day types. -/
def initializeScheduleAssignments (dayType : String) : List Assignment :=
  if dayType = "wednesday" ∨ dayType = "saturday" then
    [⟨"pregacao", [], []⟩, ⟨"limpeza", [], []⟩, ⟨"louvor", [], []⟩, ⟨"introdutoria", [], []⟩]
  else if dayType = "friday" then
    [⟨"pregacao", [], []⟩, ⟨"portaria", [], []⟩]
  else
    []

/-- Embeds handleDayTypeChange (src/unnamed/part_002 lines 601-607): the
form keeps its date, takes the new day type, and its assignments are
replaced wholesale by freshly initialized ones. -/
def handleDayTypeChange (form : ScheduleForm) (dayType : String) : ScheduleForm :=
  { form with day_type := dayType, assignments := initializeScheduleAssignments dayType }

/-- In-place update of the user_ids of the assignment at a given index,
the array mutation performed by handleAssignmentChange. -/
def setUserIdsAt : List Assignment → Nat → List String → List Assignment
  | [], _, _ => []
  | a :: rest, 0, userIds => { a with user_ids := userIds } :: rest
  | a :: rest, n + 1, userIds => a :: setUserIdsAt rest n userIds

/-- Embeds handleAssignmentChange (src/unnamed/part_002 lines 609-613) for
an in-range index: newAssignments[assignmentIndex].user_ids = userIds; the
responses object of every assignment is not touched. -/
def handleAssignmentChange (form : ScheduleForm) (assignmentIndex : Nat)
    (userIds : List String) : ScheduleForm :=
  { form with assignments := setUserIdsAt form.assignments assignmentIndex userIds }

/-- Embeds handleEditSchedule (src/unnamed/part_002 lines 638-646): the
form is loaded from the existing schedule unchanged. -/
def handleEditSchedule (schedule : ScheduleRecord) : ScheduleForm :=
  { date := schedule.date, day_type := schedule.day_type,
    assignments := schedule.assignments }

/-- Embeds the over-staffing warning condition of the schedule form
(src/unnamed/part_002 lines 938-942): shown exactly when an assignment has
more selected user ids than the required count. -/
def overstaffWarningShown (a : Assignment) (dayType : String) : Bool :=
  decide (a.user_ids.length > getRequiredCount a.function_type dayType)

/-- Role sections rendered by the ScheduleCard of src/unnamed/part_002
(lines 251 and 263): one section per role of getAllFunctions applied to the
day type of the record, whether or not an assignment exists for it. -/
def renderedRoleSections (s : ScheduleRecord) : List String :=
  getAllFunctions s.day_type

/-- Role sections rendered by the ScheduleCard of src/frontend/src/App.js
(line 241): one section per assignment present in the record. -/
def renderedRoleSectionsApp (s : ScheduleRecord) : List String :=
  s.assignments.map Assignment.function_type

/-- Error taxonomy of the specification (section 7). -/
inductive Err where
  | validationError
  | notFoundError
  | authorizationError
  | invalidStateError
  deriving Repr, DecidableEq

/-- Terminal status a volunteer may request through recordResponse; the
specification admits only Accepted and Declined as targets, so resetting to
Pending is unrepresentable by construction. -/
inductive TerminalStatus where
  | accepted
  | declined
  deriving Repr, DecidableEq

/-- Status string stored for a terminal status, matching the strings the
frontend consumes (src/unnamed/part_002 lines 292-297). -/
def TerminalStatus.toStatusString : TerminalStatus → String
  | .accepted => "accepted"
  | .declined => "declined"

/-- Modelled from the spec: the backend createSchedule operation (spec
sections 4.2 and 6) is not among the source files; only its frontend caller
handleCreateSchedule (src/unnamed/part_002 lines 615-636) is. Following the
words of section 4.2: an empty date or an unrecognized day type is a
ValidationError; each role of the requirement table gets the supplied user
ids when given and an empty set otherwise, with a Pending response entry
created for every supplied user id per the section 3 lifecycle; supplied
roles outside the table are dropped; over-staffed roles are reported as
non-fatal warnings next to the successful result. Record identity comes
from an external collaborator and is modelled as a fixed placeholder. -/
def createSchedule (date dayType : String) (supplied : List (String × List String)) :
    Except Err (ScheduleRecord × List String) :=
  if date = "" then
    .error .validationError
  else if dayType ≠ "wednesday" ∧ dayType ≠ "friday" ∧ dayType ≠ "saturday" then
    .error .validationError
  else
    let assignments := (getAllFunctions dayType).map (fun r =>
      match supplied.find? (fun p => p.1 == r) with
      | some p => ⟨r, p.2, p.2.map (fun u => (u, ⟨"pending", ""⟩))⟩
      | none => ⟨r, [], []⟩)
    let warnings := assignments.filterMap (fun a =>
      if a.user_ids.length > getRequiredCount a.function_type dayType then
        some a.function_type
      else
        none)
    .ok (⟨"new", date, dayType, assignments⟩, warnings)

/-- Modelled from the spec: the backend recordResponse operation (spec
sections 4.3 and 6) is not among the source files; only its frontend caller
handleScheduleResponse (src/unnamed/part_002 lines 190-203) and the
response-button guard of the ScheduleCard (lines 301-319) are. Following
the words of sections 4.3 and 8: a missing schedule, role, or response
entry is a NotFoundError; a caller whose user id is not among the role's
user_ids gets an AuthorizationError (administrators have no bypass through
this operation); a response whose current status is not pending gives an
InvalidStateError; otherwise the entry is overwritten with the requested
terminal status, the reason being stored only for declined, and the updated
assignment is returned together with the updated schedule list. The
respond function here is the entry overwrite of a successful call; the
recordResponse function below is the full operation. -/
def respond (a : Assignment) (callerUserId : String) (status : TerminalStatus)
    (reason : String) : Assignment :=
  { a with responses := a.responses.map (fun q =>
      if q.1 == callerUserId then
        (q.1, ⟨status.toStatusString, if status = .declined then reason else ""⟩)
      else q) }

/-- Modelled from the spec: the backend recordResponse operation, see the
comment on respond above for the modelling sources and rules. -/
def recordResponse (state : List ScheduleRecord) (scheduleId roleType callerUserId : String)
    (status : TerminalStatus) (reason : String) :
    Except Err (Assignment × List ScheduleRecord) :=
  match state.find? (fun s => s.id == scheduleId) with
  | none => .error .notFoundError
  | some sch =>
    match sch.assignments.find? (fun b => b.function_type == roleType) with
    | none => .error .notFoundError
    | some a =>
      if callerUserId ∈ a.user_ids then
        match a.responses.find? (fun q => q.1 == callerUserId) with
        | none => .error .notFoundError
        | some pr =>
          if pr.2.status = "pending" then
            .ok (respond a callerUserId status reason, state.map (fun s =>
              if s.id == scheduleId then
                { s with assignments := s.assignments.map (fun b =>
                    if b.function_type == roleType then
                      respond a callerUserId status reason
                    else b) }
              else s))
          else
            .error .invalidStateError
      else
        .error .authorizationError

/- Helper lemmas shared between claims. -/

/-- Finding after a guarded in-place map: when the update preserves the
search predicate on the elements it touches, find? on the mapped list is
the image of find? on the original list. -/
theorem find?_map_guard {α : Type} (p : α → Bool) (f : α → α)
    (hpf : ∀ x, p x = true → p (f x) = true) :
    ∀ l : List α,
      (l.map (fun x => if p x then f x else x)).find? p = (l.find? p).map f := by
  intro l
  induction l with
  | nil => rfl
  | cons x xs ih =>
    by_cases hx : p x = true
    · simp [List.find?_cons, hx, hpf x hx]
    · simp only [Bool.not_eq_true] at hx
      simp [List.find?_cons, hx, ih]

/-- initializeScheduleAssignments builds exactly one empty assignment per
role of getAllFunctions, in order. -/
theorem initializeScheduleAssignments_eq_map (d : String) :
    initializeScheduleAssignments d
      = (getAllFunctions d).map (fun r => ⟨r, [], []⟩) := by
  by_cases h₁ : d = "wednesday" ∨ d = "saturday"
  · simp [initializeScheduleAssignments, getAllFunctions, h₁]
  · by_cases h₂ : d = "friday" <;>
      simp [initializeScheduleAssignments, getAllFunctions, h₁, h₂]

/-- setUserIdsAt leaves every responses field unchanged. -/
theorem setUserIdsAt_responses (l : List Assignment) (i : Nat) (uids : List String) :
    (setUserIdsAt l i uids).map Assignment.responses = l.map Assignment.responses := by
  induction l generalizing i with
  | nil => rfl
  | cons a rest ih =>
    cases i with
    | zero => rfl
    | succ n => simpa [setUserIdsAt] using ih n

/-- setUserIdsAt leaves every function_type field unchanged. -/
theorem setUserIdsAt_function_types (l : List Assignment) (i : Nat) (uids : List String) :
    (setUserIdsAt l i uids).map Assignment.function_type
      = l.map Assignment.function_type := by
  induction l generalizing i with
  | nil => rfl
  | cons a rest ih =>
    cases i with
    | zero => rfl
    | succ n => simpa [setUserIdsAt] using ih n

/- Claims C1, C2, C8, C9 about the requirements lookup and initialization. -/

/-- C1: for Wednesday and Saturday the requirements lookup returns exactly
pregacao with count 1, limpeza with count 3, louvor with count 3 and
introdutoria with count 1; for Friday exactly pregacao with count 1 and
portaria with count 1. -/
theorem requirements_table_correct :
    requirementsFor "wednesday"
        = [("pregacao", 1), ("limpeza", 3), ("louvor", 3), ("introdutoria", 1)]
      ∧ requirementsFor "saturday"
        = [("pregacao", 1), ("limpeza", 3), ("louvor", 3), ("introdutoria", 1)]
      ∧ requirementsFor "friday" = [("pregacao", 1), ("portaria", 1)] := by
  refine ⟨?_, ?_, ?_⟩ <;> rfl

/-- C2: for every day type, initializing a schedule with no supplied
assignments produces exactly one assignment per required role, in the
canonical order of the requirements lookup, each with empty user_ids and
empty responses; the date plays no role in the initialization. -/
theorem create_empty_schedule_assignments (date dayType : String) :
    (ScheduleForm.mk date dayType (initializeScheduleAssignments dayType)).assignments
      = (requirementsFor dayType).map (fun rc => ⟨rc.1, [], []⟩) := by
  show initializeScheduleAssignments dayType
      = (requirementsFor dayType).map (fun rc => ⟨rc.1, [], []⟩)
  rw [initializeScheduleAssignments_eq_map, requirementsFor, List.map_map]
  rfl

/-- C9: getRequiredCount never reads its dayType argument, and every
functionType outside the five known roles gets the silent fallback 1. -/
theorem getRequiredCount_day_independent :
    (∀ f d₁ d₂, getRequiredCount f d₁ = getRequiredCount f d₂)
      ∧ (∀ f d, f ≠ "pregacao" → f ≠ "introdutoria" → f ≠ "portaria" →
          f ≠ "limpeza" → f ≠ "louvor" → getRequiredCount f d = 1) := by
  constructor
  · intro f d₁ d₂
    rfl
  · intro f d h₁ h₂ h₃ h₄ h₅
    simp [getRequiredCount, h₁, h₂, h₃, h₄, h₅]

/-- Witness for C9 at concrete inputs: an unknown role on an unknown day
gets count 1, and limpeza has the same count on two different days. -/
theorem getRequiredCount_day_independent_witness :
    getRequiredCount "algo" "monday" = 1
      ∧ getRequiredCount "limpeza" "wednesday" = getRequiredCount "limpeza" "friday" :=
  ⟨getRequiredCount_day_independent.2 "algo" "monday"
      (by decide) (by decide) (by decide) (by decide) (by decide),
    getRequiredCount_day_independent.1 "limpeza" "wednesday" "friday"⟩

/-- C8 counterexample: for the unrecognized day type monday the lookup does
not fail with a ValidationError; it silently returns the empty list (and
getRequiredCount silently returns 1), so the code has no failure path. -/
theorem requirementsFor_unrecognized_counterexample :
    requirementsFor "monday" = [] ∧ getRequiredCount "monday" "monday" = 1 := by
  exact ⟨rfl, rfl⟩

/-- C8 amended: for every day type outside the three recognized values the
lookup returns the empty list as a silent fallback; no error of any kind is
raised. -/
theorem requirementsFor_unrecognized_fallback (d : String)
    (h₁ : d ≠ "wednesday") (h₂ : d ≠ "friday") (h₃ : d ≠ "saturday") :
    requirementsFor d = [] := by
  simp [requirementsFor, getAllFunctions, h₁, h₂, h₃]

/-- Witness for the amended C8 at the concrete day type tuesday. -/
theorem requirementsFor_unrecognized_fallback_witness :
    requirementsFor "tuesday" = [] :=
  requirementsFor_unrecognized_fallback "tuesday"
    (by decide) (by decide) (by decide)

/- Claims C4 and C5 about the admin-form mutations. -/

/-- C4 counterexample: adding user u1 to the first assignment of a fresh
Wednesday form puts u1 in user_ids but creates no response entry at all, in
particular no Pending entry; the responses object stays empty. This is the
state the isCurrentUser-and-no-response guard of the ScheduleCard (line 301)
is written for. -/
theorem assignment_pending_response_counterexample :
    "u1" ∈ ((handleAssignmentChange
        ⟨"2025-01-01", "wednesday", initializeScheduleAssignments "wednesday"⟩
        0 ["u1"]).assignments.getD 0 ⟨"", [], []⟩).user_ids
      ∧ ((handleAssignmentChange
        ⟨"2025-01-01", "wednesday", initializeScheduleAssignments "wednesday"⟩
        0 ["u1"]).assignments.getD 0 ⟨"", [], []⟩).responses = [] := by
  exact ⟨by decide, by decide⟩

/-- C4 amended: handleAssignmentChange replaces the user_ids of the indexed
assignment and leaves the responses object of every assignment unchanged,
so a user id newly added to user_ids has no response entry (not even a
Pending one), and a user id removed from user_ids keeps its response entry.
The responses-keys-subset-of-user-ids invariant therefore holds after the
change only when the untouched responses already had their keys among the
new user_ids (as in a freshly initialized, empty responses object). -/
theorem handleAssignmentChange_responses_unchanged
    (form : ScheduleForm) (i : Nat) (uids : List String) :
    (handleAssignmentChange form i uids).assignments.map Assignment.responses
      = form.assignments.map Assignment.responses := by
  exact setUserIdsAt_responses form.assignments i uids

/-- C5 counterexample: a Wednesday form with u1 staffed on pregacao, updated
to Friday, does not keep u1 on pregacao (a role required by both day types):
every assignment is replaced by a fresh empty one. -/
theorem dayTypeChange_drops_shared_role_counterexample :
    (handleDayTypeChange
        (handleAssignmentChange
          ⟨"2025-01-01", "wednesday", initializeScheduleAssignments "wednesday"⟩
          0 ["u1"])
        "friday").assignments
      = [⟨"pregacao", [], []⟩, ⟨"portaria", [], []⟩]
    ∧ ((handleDayTypeChange
        (handleAssignmentChange
          ⟨"2025-01-01", "wednesday", initializeScheduleAssignments "wednesday"⟩
          0 ["u1"])
        "friday").assignments.getD 0 ⟨"", [], []⟩).user_ids = [] := by
  exact ⟨by decide, by decide⟩

/-- C5 amended: changing the day type recomputes the role set from the new
day type by replacing the whole assignment list with freshly initialized
empty assignments: roles the new day type does not require are discarded
together with their responses, roles it requires are created with empty
user_ids — including roles required by both day types, whose previously
supplied user ids are lost rather than kept. -/
theorem handleDayTypeChange_replaces_assignments (form : ScheduleForm) (d : String) :
    (handleDayTypeChange form d).day_type = d
      ∧ (handleDayTypeChange form d).assignments
        = (requirementsFor d).map (fun rc => ⟨rc.1, [], []⟩) := by
  refine ⟨rfl, ?_⟩
  show initializeScheduleAssignments d
      = (requirementsFor d).map (fun rc => ⟨rc.1, [], []⟩)
  rw [initializeScheduleAssignments_eq_map, requirementsFor, List.map_map]
  rfl

/- Claim C10 about the two ScheduleCard components. -/

/-- C10 counterexample: on a Wednesday record with an empty assignment list
the ScheduleCard of src/unnamed/part_002 renders the four required role
sections while the ScheduleCard of src/frontend/src/App.js renders none. -/
theorem scheduleCard_sections_counterexample :
    renderedRoleSections ⟨"s1", "2025-01-01", "wednesday", []⟩
      ≠ renderedRoleSectionsApp ⟨"s1", "2025-01-01", "wednesday", []⟩ := by
  decide

/-- C10 amended: the two ScheduleCard versions agree exactly on records
whose assignment list carries the required roles of the day type in
canonical order — in particular on every record whose assignments come from
initializeScheduleAssignments; in general the src/unnamed/part_002 version
renders one section per role required by the day type and the App.js
version one section per assignment present, which can differ. -/
theorem scheduleCard_sections_agree
    (s : ScheduleRecord)
    (h : s.assignments.map Assignment.function_type = getAllFunctions s.day_type) :
    renderedRoleSections s = renderedRoleSectionsApp s
      ∧ ∀ i d a : String,
          (ScheduleRecord.mk i d a (initializeScheduleAssignments a)).assignments.map
              Assignment.function_type
            = getAllFunctions a := by
  constructor
  · rw [renderedRoleSections, renderedRoleSectionsApp, h]
  · intro i d a
    show (initializeScheduleAssignments a).map Assignment.function_type
        = getAllFunctions a
    rw [initializeScheduleAssignments_eq_map, List.map_map]
    exact List.map_id _

/-- Witness for the amended C10 on a concrete freshly initialized Friday
record, discharging the canonical-order hypothesis by evaluation. -/
theorem scheduleCard_sections_agree_witness :
    renderedRoleSections
        ⟨"s1", "2025-01-03", "friday", initializeScheduleAssignments "friday"⟩
      = renderedRoleSectionsApp
        ⟨"s1", "2025-01-03", "friday", initializeScheduleAssignments "friday"⟩ :=
  (scheduleCard_sections_agree
    ⟨"s1", "2025-01-03", "friday", initializeScheduleAssignments "friday"⟩
    (by decide)).1

/- Claims C3, C6 and C7 about the spec-modelled backend operations. -/

/-- respond keeps the role type of the assignment. -/
theorem respond_function_type (a : Assignment) (uid : String)
    (st : TerminalStatus) (r : String) :
    (respond a uid st r).function_type = a.function_type := rfl

/-- respond keeps the user id list of the assignment. -/
theorem respond_user_ids (a : Assignment) (uid : String)
    (st : TerminalStatus) (r : String) :
    (respond a uid st r).user_ids = a.user_ids := rfl

/-- respond rewrites the response entry found under the caller key to the
requested terminal status. -/
theorem respond_find? (a : Assignment) (uid : String)
    (st : TerminalStatus) (r : String) (pr : String × Response)
    (h : a.responses.find? (fun q => q.1 == uid) = some pr) :
    (respond a uid st r).responses.find? (fun q => q.1 == uid)
      = some (pr.1, ⟨st.toStatusString, if st = .declined then r else ""⟩) := by
  show (a.responses.map (fun q =>
      if q.1 == uid then
        (q.1, ⟨st.toStatusString, if st = .declined then r else ""⟩)
      else q)).find? (fun q => q.1 == uid) = _
  rw [find?_map_guard (fun q => q.1 == uid)
    (fun q => (q.1, ⟨st.toStatusString, if st = .declined then r else ""⟩))
    (fun x hx => hx) a.responses, h]
  rfl

/-- the status string of a terminal status is never the pending one. -/
theorem toStatusString_ne_pending (st : TerminalStatus) :
    st.toStatusString ≠ "pending" := by
  cases st <;> decide

/-- C7: a caller whose user id is not among the target role's user_ids gets
an AuthorizationError from recordResponse; since the operation answers with
an error and returns no successor state, no response entry of any
assignment is mutated. -/
theorem recordResponse_unauthorized
    (state : List ScheduleRecord) (sid role uid : String)
    (st : TerminalStatus) (reason : String)
    (sch : ScheduleRecord) (a : Assignment)
    (hs : state.find? (fun s => s.id == sid) = some sch)
    (ha : sch.assignments.find? (fun b => b.function_type == role) = some a)
    (hmem : uid ∉ a.user_ids) :
    recordResponse state sid role uid st reason = .error .authorizationError := by
  simp only [recordResponse, hs, ha, if_neg hmem]

/-- Witness for C7: user u2 is not assigned to pregacao of schedule s1, so
answering for it is an AuthorizationError. -/
theorem recordResponse_unauthorized_witness :
    recordResponse
        [⟨"s1", "2025-01-03", "friday",
          [⟨"pregacao", ["u1"], [("u1", ⟨"pending", ""⟩)]⟩, ⟨"portaria", [], []⟩]⟩]
        "s1" "pregacao" "u2" .accepted ""
      = .error .authorizationError :=
  recordResponse_unauthorized
    [⟨"s1", "2025-01-03", "friday",
      [⟨"pregacao", ["u1"], [("u1", ⟨"pending", ""⟩)]⟩, ⟨"portaria", [], []⟩]⟩]
    "s1" "pregacao" "u2" .accepted ""
    ⟨"s1", "2025-01-03", "friday",
      [⟨"pregacao", ["u1"], [("u1", ⟨"pending", ""⟩)]⟩, ⟨"portaria", [], []⟩]⟩
    ⟨"pregacao", ["u1"], [("u1", ⟨"pending", ""⟩)]⟩
    (by decide) (by decide) (by decide)

/-- C6: supplying more user ids than the required count of a role never
fails: createSchedule answers with a successful record and lists the
over-staffed role among the non-fatal warnings, and the admin form of
src/unnamed/part_002 shows the warning text for such an assignment. -/
theorem createSchedule_overstaffing_warns
    (date dayType role : String) (supplied : List (String × List String))
    (uids : List String)
    (hdate : date ≠ "")
    (hday : dayType = "wednesday" ∨ dayType = "friday" ∨ dayType = "saturday")
    (hrole : role ∈ getAllFunctions dayType)
    (hfind : supplied.find? (fun p => p.1 == role) = some (role, uids))
    (hover : getRequiredCount role dayType < uids.length) :
    (∃ rec warns, createSchedule date dayType supplied = .ok (rec, warns)
        ∧ role ∈ warns)
      ∧ overstaffWarningShown ⟨role, uids, []⟩ dayType = true := by
  have hday' : ¬(dayType ≠ "wednesday" ∧ dayType ≠ "friday" ∧ dayType ≠ "saturday") := by
    rcases hday with h | h | h <;> simp [h]
  have hx : (⟨role, uids, uids.map (fun u => (u, ⟨"pending", ""⟩))⟩ : Assignment)
      ∈ (getAllFunctions dayType).map (fun r =>
          match supplied.find? (fun p => p.1 == r) with
          | some p => (⟨r, p.2, p.2.map (fun u => (u, ⟨"pending", ""⟩))⟩ : Assignment)
          | none => ⟨r, [], []⟩) := by
    refine List.mem_map.mpr ⟨role, hrole, ?_⟩
    rw [hfind]
  have hwarn : role ∈ ((getAllFunctions dayType).map (fun r =>
        match supplied.find? (fun p => p.1 == r) with
        | some p => (⟨r, p.2, p.2.map (fun u => (u, ⟨"pending", ""⟩))⟩ : Assignment)
        | none => ⟨r, [], []⟩)).filterMap (fun a =>
      if a.user_ids.length > getRequiredCount a.function_type dayType then
        some a.function_type
      else
        none) := by
    refine List.mem_filterMap.mpr ⟨_, hx, ?_⟩
    simp only [if_pos hover]
  have hrun : createSchedule date dayType supplied
      = .ok (⟨"new", date, dayType,
          (getAllFunctions dayType).map (fun r =>
            match supplied.find? (fun p => p.1 == r) with
            | some p => (⟨r, p.2, p.2.map (fun u => (u, ⟨"pending", ""⟩))⟩ : Assignment)
            | none => ⟨r, [], []⟩)⟩,
        ((getAllFunctions dayType).map (fun r =>
            match supplied.find? (fun p => p.1 == r) with
            | some p => (⟨r, p.2, p.2.map (fun u => (u, ⟨"pending", ""⟩))⟩ : Assignment)
            | none => ⟨r, [], []⟩)).filterMap (fun a =>
          if a.user_ids.length > getRequiredCount a.function_type dayType then
            some a.function_type
          else
            none)) := by
    unfold createSchedule
    rw [if_neg hdate, if_neg hday']
  refine ⟨⟨_, _, hrun, hwarn⟩, ?_⟩
  simp only [overstaffWarningShown, decide_eq_true_eq]
  exact hover

/-- Witness for C6: four user ids on limpeza, which requires three, on a
Wednesday schedule: creation succeeds, warns about limpeza, and the form
warning is shown. -/
theorem createSchedule_overstaffing_warns_witness :
    (∃ rec warns,
        createSchedule "2025-01-01" "wednesday"
            [("limpeza", ["u1", "u2", "u3", "u4"])]
          = .ok (rec, warns) ∧ "limpeza" ∈ warns)
      ∧ overstaffWarningShown
          ⟨"limpeza", ["u1", "u2", "u3", "u4"], []⟩ "wednesday" = true :=
  createSchedule_overstaffing_warns "2025-01-01" "wednesday" "limpeza"
    [("limpeza", ["u1", "u2", "u3", "u4"])] ["u1", "u2", "u3", "u4"]
    (by decide) (Or.inl rfl) (by decide) (by decide) (by decide)

/-- C3: responses are one-shot. Whenever recordResponse succeeds, any second
call for the same schedule, role and user — with either terminal status —
fails with an InvalidStateError on the updated state, so there is no path
out of accepted or declined; a reset to pending is unrepresentable because
the operation only accepts terminal statuses. -/
theorem recordResponse_one_shot
    (state : List ScheduleRecord) (sid role uid : String)
    (st₁ st₂ : TerminalStatus) (r₁ r₂ : String)
    (upd : Assignment) (state' : List ScheduleRecord)
    (h : recordResponse state sid role uid st₁ r₁ = .ok (upd, state')) :
    recordResponse state' sid role uid st₂ r₂ = .error .invalidStateError := by
  unfold recordResponse at h
  cases hs : state.find? (fun s => s.id == sid) with
  | none =>
    simp only [hs] at h
    exact Except.noConfusion h
  | some sch =>
    simp only [hs] at h
    cases ha : sch.assignments.find? (fun b => b.function_type == role) with
    | none =>
      simp only [ha] at h
      exact Except.noConfusion h
    | some a =>
      simp only [ha] at h
      by_cases hmem : uid ∈ a.user_ids
      · rw [if_pos hmem] at h
        cases hr : a.responses.find? (fun q => q.1 == uid) with
        | none =>
          simp only [hr] at h
          exact Except.noConfusion h
        | some pr =>
          simp only [hr] at h
          by_cases hp : pr.2.status = "pending"
          · rw [if_pos hp] at h
            injection h with hpair
            injection hpair with h₁ h₂
            subst h₂
            have hfs : (state.map (fun s =>
                if s.id == sid then
                  { s with assignments := s.assignments.map (fun b =>
                      if b.function_type == role then respond a uid st₁ r₁ else b) }
                else s)).find? (fun s => s.id == sid)
                = some { sch with assignments := sch.assignments.map (fun b =>
                    if b.function_type == role then respond a uid st₁ r₁ else b) } := by
              have hgen := find?_map_guard (fun s => s.id == sid)
                (fun s => { s with assignments := s.assignments.map (fun b =>
                    if b.function_type == role then respond a uid st₁ r₁ else b) })
                (fun x hx => hx) state
              rw [hs] at hgen
              exact hgen
            have hfa : ({ sch with assignments := sch.assignments.map (fun b =>
                if b.function_type == role then respond a uid st₁ r₁ else b)
                  : ScheduleRecord }).assignments.find?
                  (fun b => b.function_type == role)
                = some (respond a uid st₁ r₁) := by
              have hkey := List.find?_some ha
              have hgen := find?_map_guard (fun b => b.function_type == role)
                (fun _ => respond a uid st₁ r₁)
                (fun x hx => by
                  show ((respond a uid st₁ r₁).function_type == role) = true
                  rw [respond_function_type]
                  exact hkey)
                sch.assignments
              rw [ha] at hgen
              exact hgen
            have hfm : uid ∈ (respond a uid st₁ r₁).user_ids := by
              rw [respond_user_ids]
              exact hmem
            have hfr := respond_find? a uid st₁ r₁ pr hr
            simp only [recordResponse, hfs, hfa, if_pos hfm, hfr,
              if_neg (toStatusString_ne_pending st₁)]
          · rw [if_neg hp] at h
            exact Except.noConfusion h
      · rw [if_neg hmem] at h
        exact Except.noConfusion h

/-- Witness for C3: a pending response of u1 on pregacao of s1 is accepted
once; declining afterwards on the updated state is an InvalidStateError. -/
theorem recordResponse_one_shot_witness :
    recordResponse
        [⟨"s1", "2025-01-03", "friday",
          [⟨"pregacao", ["u1"], [("u1", ⟨"accepted", ""⟩)]⟩, ⟨"portaria", [], []⟩]⟩]
        "s1" "pregacao" "u1" .declined "motivo"
      = .error .invalidStateError :=
  recordResponse_one_shot
    [⟨"s1", "2025-01-03", "friday",
      [⟨"pregacao", ["u1"], [("u1", ⟨"pending", ""⟩)]⟩, ⟨"portaria", [], []⟩]⟩]
    "s1" "pregacao" "u1" .accepted .declined "" "motivo"
    ⟨"pregacao", ["u1"], [("u1", ⟨"accepted", ""⟩)]⟩
    [⟨"s1", "2025-01-03", "friday",
      [⟨"pregacao", ["u1"], [("u1", ⟨"accepted", ""⟩)]⟩, ⟨"portaria", [], []⟩]⟩]
    (by rfl)

end Escala
